import Mathlib

/-!
Shallow embedding of the product-management page of
`frontend/app/page.tsx`: the client-side state (product list, form data,
editing id) and the four handlers (`fetchProducts`, `handleSubmit`,
`handleEdit`, `handleDelete`), each modelled as a pure function from the
component state and the outcome of its awaited request to the new state,
the list of HTTP requests it issues, and the number of diagnostics it
logs to the console.
-/

/-- Remote product entity, as in the `Product` interface of the source:
`id : number`, `name : string`, `description : string | null`,
`price : string` (Django DecimalField serialised as text). -/
structure Product where
  id : Int
  name : String
  description : Option String
  price : String
deriving Repr, DecidableEq

/-- The `formData` state: three text fields mirroring the inputs. -/
structure FormData where
  name : String
  description : String
  price : String
deriving Repr, DecidableEq

/-- Client-local state of the component: `products`, `formData`,
`editingId` (a number or null). -/
structure ComponentState where
  products : List Product
  formData : FormData
  editingId : Option Int
deriving Repr, DecidableEq

/-- Outbound request payload built by `handleSubmit`: the form fields with
`price` coerced to a number. -/
structure Payload where
  name : String
  description : String
  price : Rat
deriving Repr, DecidableEq

/-- HTTP requests the component can issue against the API.
`get` is `GET /products/`; `post` is `POST /products/`;
`put id` is `PUT /products/{id}/`; `delete id` is `DELETE /products/{id}/`. -/
inductive Request where
  | get : Request
  | post : Payload → Request
  | put : Int → Payload → Request
  | delete : Int → Request
deriving Repr, DecidableEq

/-- Result of running a handler: the state after its own `set*` calls,
the requests it issued (in order), and how many `console.error`
diagnostics it produced. -/
structure HandlerResult where
  state : ComponentState
  requests : List Request
  diagnostics : Nat
deriving Repr, DecidableEq

/-- JS truthiness of a `number | null` value: `null`, `0` (and `NaN`,
which cannot arise for an id) are falsy. -/
def jsTruthy : Option Int → Bool
  | none => false
  | some n => decide (n ≠ 0)

/-- JS `x || d` on a `string | null` value `x`: `null` and `""` are
falsy. Used for `product.description || ''`. -/
def jsOrElse : Option String → String → String
  | none, d => d
  | some t, d => if t = "" then d else t

/-- JS `x || d` on a number-or-NaN value (`none` models `NaN`): `NaN`,
`0` and `-0` are falsy. Used for `parseFloat(formData.price) || 0`. -/
def jsOrNum : Option Rat → Rat → Rat
  | none, d => d
  | some q, d => if q = 0 then d else q

/-- JS `String(x)` applied to a value that is already a string is the
identity. Used for `String(product.price)` with `price : string`. -/
def jsStringOfString (s : String) : String := s

/-- Characters `parseFloat` skips at the start of its input. -/
def jsWhitespace (c : Char) : Bool :=
  c = ' ' ∨ c = '\t' ∨ c = '\n' ∨ c = '\r'

/-- Numeric value of a decimal digit character. -/
def digitVal (c : Char) : Nat := c.toNat - '0'.toNat

/-- Consume a maximal run of decimal digits, accumulating their value and
count; returns the value, the number of digits consumed, and the rest. -/
def takeDigits : List Char → Nat → Nat → Nat × Nat × List Char
  | [], acc, n => (acc, n, [])
  | c :: cs, acc, n =>
      if c.isDigit then takeDigits cs (10 * acc + digitVal c) (n + 1)
      else (acc, n, c :: cs)

/-- Exponent part of a JS float literal: optional sign then digits; an
exponent marker not followed by digits is ignored (treated as 0). -/
def parseExp (cs : List Char) : Int :=
  let sign : Int × List Char :=
    match cs with
    | '-' :: rest => (-1, rest)
    | '+' :: rest => (1, rest)
    | _ => (1, cs)
  let d := takeDigits sign.2 0 0
  if d.2.1 = 0 then 0 else sign.1 * (d.1 : Int)

/-- Model of JS `parseFloat`: skip leading whitespace, read an optional
sign, then the longest prefix of the form digits, optional fraction,
optional exponent. When no digits at all are read the result is `NaN`,
modelled as `none`. -/
def parseFloat (s : String) : Option Rat :=
  let cs := s.data.dropWhile jsWhitespace
  let signed : Rat × List Char :=
    match cs with
    | '-' :: rest => (-1, rest)
    | '+' :: rest => (1, rest)
    | _ => (1, cs)
  let ip := takeDigits signed.2 0 0
  let fp : Nat × Nat × List Char :=
    match ip.2.2 with
    | '.' :: rest => takeDigits rest 0 0
    | _ => (0, 0, ip.2.2)
  if ip.2.1 + fp.2.1 = 0 then none
  else
    let mantissa : Rat := (ip.1 : Rat) + (fp.1 : Rat) / ((10 : Rat) ^ fp.2.1)
    let expo : Int :=
      match fp.2.2 with
      | 'e' :: rest => parseExp rest
      | 'E' :: rest => parseExp rest
      | _ => 0
    some ((signed.1 * mantissa) * (10 : Rat) ^ expo)

/-- The empty form written by the setFormData reset call: all three text
fields empty. -/
def emptyForm : FormData := { name := "", description := "", price := "" }

/-- The `submissionData` object of `handleSubmit`: the form fields with
`price: parseFloat(formData.price) || 0`. -/
def submissionData (f : FormData) : Payload :=
  { name := f.name
    description := f.description
    price := jsOrNum (parseFloat f.price) 0 }

/-- `fetchProducts`: issues `GET /products/`; on success (`some data`)
replaces `products` with the response body; on failure logs one
diagnostic and changes nothing. -/
def fetchProducts (s : ComponentState) (response : Option (List Product)) :
    HandlerResult :=
  match response with
  | some data =>
      { state := { s with products := data }
        requests := [Request.get]
        diagnostics := 0 }
  | none =>
      { state := s, requests := [Request.get], diagnostics := 1 }

/-- `handleSubmit`: builds `submissionData`; if `editingId` is truthy,
awaits a PUT to that id and on success sets `editingId` to `null` (on
failure only logs); otherwise awaits a POST (on failure only logs).
Afterwards it always resets the form and calls `fetchProducts()`, which
issues the trailing GET. `ok` is the outcome of the awaited request. -/
def handleSubmit (s : ComponentState) (ok : Bool) : HandlerResult :=
  let payload := submissionData s.formData
  if jsTruthy s.editingId then
    { state :=
        { s with
          editingId := if ok then none else s.editingId
          formData := emptyForm }
      requests := [Request.put (s.editingId.getD 0) payload, Request.get]
      diagnostics := if ok then 0 else 1 }
  else
    { state := { s with formData := emptyForm }
      requests := [Request.post payload, Request.get]
      diagnostics := if ok then 0 else 1 }

/-- handleEdit of a product: sets `editingId` to the id of the product
and fills the form with its name, its description with null replaced by
empty text via the or-operator, and its price passed through String. -/
def handleEdit (s : ComponentState) (p : Product) : ComponentState :=
  { s with
    editingId := some p.id
    formData :=
      { name := p.name
        description := jsOrElse p.description ""
        price := jsStringOfString p.price } }

/-- `handleDelete(id)`: awaits `DELETE /products/{id}/` and then, still
inside the `try` block, calls `fetchProducts()`; when the delete throws,
the `catch` only logs, so no GET is issued. No `set*` call occurs in
this handler itself. -/
def handleDelete (s : ComponentState) (id : Int) (ok : Bool) :
    HandlerResult :=
  if ok then
    { state := s, requests := [Request.delete id, Request.get], diagnostics := 0 }
  else
    { state := s, requests := [Request.delete id], diagnostics := 1 }

/-- The initial state of the component: empty list, empty form,
`editingId = null`. -/
def initialState : ComponentState :=
  { products := [], formData := emptyForm, editingId := none }

/-- The product of the scenario in the spec:
id 1, name Pen, null description, price text 1.50. -/
def penProduct : Product :=
  { id := 1, name := "Pen", description := none, price := "1.50" }

/-- The collection state of the scenario in the spec: the list holds only
`penProduct`, the form is empty, nothing is being edited. -/
def penState : ComponentState :=
  { products := [penProduct], formData := emptyForm, editingId := none }

/-- For a nullable string, the or-operator with empty-text default agrees
with nullish coalescing to empty text. -/
theorem jsOrElse_empty (d : Option String) : jsOrElse d "" = d.getD "" := by
  cases d with
  | none => rfl
  | some t =>
      by_cases ht : t = "" <;> simp [jsOrElse, ht]

/-- C1 (counterexample): submitting in edit mode (editingId = 1) with a
failing PUT leaves editingId set, so EditingTarget is not reset to none
regardless of outcome. -/
theorem C1_counterexample :
    (handleSubmit
        { products := [], formData := emptyForm, editingId := some 1 }
        false).state.editingId ≠ none := by decide

/-- C1 (amended): while editingId is a nonzero id, submit issues exactly
one PUT to that id (followed by the re-fetch GET); on success editingId
becomes none, on failure it keeps its value. -/
theorem C1_submit_update (s : ComponentState) (id : Int) (hid : id ≠ 0)
    (h : s.editingId = some id) (ok : Bool) :
    (handleSubmit s ok).requests =
      [Request.put id (submissionData s.formData), Request.get] ∧
    (handleSubmit s ok).state.editingId = (if ok then none else some id) := by
  have ht : jsTruthy (some id) = true := by simp [jsTruthy, hid]
  cases ok <;> simp [handleSubmit, h, ht]

/-- C1 witness: the amended statement at a concrete editing state with a
successful request. -/
theorem C1_submit_update_witness :
    (1 : Int) ≠ 0 ∧
    ({ products := [], formData := emptyForm,
       editingId := some 1 } : ComponentState).editingId = some 1 ∧
    ((handleSubmit
          { products := [], formData := emptyForm, editingId := some 1 }
          true).requests =
        [Request.put 1 (submissionData emptyForm), Request.get] ∧
      (handleSubmit
          { products := [], formData := emptyForm, editingId := some 1 }
          true).state.editingId = (if true then none else some 1)) :=
  ⟨by decide, rfl,
    C1_submit_update
      { products := [], formData := emptyForm, editingId := some 1 }
      1 (by decide) rfl true⟩

/-- C2 (counterexample): when the DELETE fails, no GET is issued at all,
so the claim that exactly one subsequent fetch happens in the failure
case is false. -/
theorem C2_counterexample :
    (handleDelete initialState 1 false).requests = [Request.delete 1] ∧
    Request.get ∉ (handleDelete initialState 1 false).requests := by decide

/-- C2 (amended): handleDelete issues exactly one DELETE to the id; on
success it is followed by exactly one fetch GET, on failure no fetch is
triggered and one diagnostic is logged. -/
theorem C2_delete_requests (s : ComponentState) (id : Int) (ok : Bool) :
    (handleDelete s id ok).requests =
      (if ok then [Request.delete id, Request.get] else [Request.delete id]) ∧
    (handleDelete s id ok).diagnostics = (if ok then 0 else 1) := by
  cases ok <;> simp [handleDelete]

/-- C3: when the GET succeeds the local collection becomes exactly the
returned array (order and content), and nothing else changes; when it
fails the whole state is untouched and one diagnostic is logged. -/
theorem C3_fetchAll (s : ComponentState) (r : Option (List Product)) :
    (fetchProducts s r).state.products = r.getD s.products ∧
    (fetchProducts s r).state.formData = s.formData ∧
    (fetchProducts s r).state.editingId = s.editingId ∧
    (fetchProducts s r).diagnostics = (if r.isSome then 0 else 1) ∧
    (fetchProducts s r).requests = [Request.get] := by
  cases r <;> simp [fetchProducts]

/-- C4: submit while editingId = none issues exactly one POST (plus the
re-fetch GET), and for either outcome the form is reset to empty and
editingId stays none. -/
theorem C4_submit_create (s : ComponentState) (ok : Bool)
    (h : s.editingId = none) :
    (handleSubmit s ok).requests =
      [Request.post (submissionData s.formData), Request.get] ∧
    (handleSubmit s ok).state.formData = emptyForm ∧
    (handleSubmit s ok).state.editingId = none := by
  cases ok <;> simp [handleSubmit, jsTruthy, h]

/-- C4 witness: the create path at the initial state with a failing
request. -/
theorem C4_submit_create_witness :
    initialState.editingId = none ∧
    ((handleSubmit initialState false).requests =
        [Request.post (submissionData emptyForm), Request.get] ∧
      (handleSubmit initialState false).state.formData = emptyForm ∧
      (handleSubmit initialState false).state.editingId = none) :=
  ⟨rfl, C4_submit_create initialState false rfl⟩

/-- C5: for every state, when the request issued by submit fails, the
editing target is unchanged, the form is still reset, the re-fetch GET
is still issued, and exactly one diagnostic is logged (the failure is
swallowed). -/
theorem C5_failure_swallowed (s : ComponentState) :
    (handleSubmit s false).state.editingId = s.editingId ∧
    (handleSubmit s false).state.formData = emptyForm ∧
    Request.get ∈ (handleSubmit s false).requests ∧
    (handleSubmit s false).diagnostics = 1 := by
  cases hb : jsTruthy s.editingId <;> simp [handleSubmit, hb]

/-- C6: from any prior state, startEdit on a product p yields the form
with name p.name, description p.description with null defaulted to empty
text, and price String(p.price), and sets editingId to p.id. -/
theorem C6_startEdit (s : ComponentState) (p : Product) :
    (handleEdit s p).formData =
      { name := p.name, description := p.description.getD "",
        price := p.price } ∧
    (handleEdit s p).editingId = some p.id := by
  refine ⟨?_, rfl⟩
  simp [handleEdit, jsStringOfString, jsOrElse_empty]

/-- C7: when the price text is empty or does not parse to a number, the
payload built by submit carries numeric price 0. -/
theorem C7_price_defaults_zero (f : FormData)
    (h : f.price = "" ∨ parseFloat f.price = none) :
    (submissionData f).price = 0 := by
  have hp : parseFloat "" = none := by decide
  rcases h with h | h
  · simp [submissionData, h, hp, jsOrNum]
  · simp [submissionData, h, jsOrNum]

/-- C7 witness: a form whose price text is non-numeric yields payload
price 0. -/
theorem C7_price_defaults_zero_witness :
    (("abc" : String) = "" ∨ parseFloat "abc" = none) ∧
    (submissionData
        { name := "x", description := "", price := "abc" }).price = 0 :=
  ⟨by decide,
    C7_price_defaults_zero
      { name := "x", description := "", price := "abc" } (by decide)⟩

/-- C8 (counterexample): the product price is the text 1.50 and String on
a string is the identity, so startEdit yields price text 1.50, not the
1.5 stated in the spec scenario. -/
theorem C8_counterexample :
    (handleEdit penState penProduct).formData.price ≠ "1.5" := by decide

/-- C8 (amended): startEdit on the Pen product yields form name Pen,
empty description and price text 1.50, and sets editingId to 1. -/
theorem C8_startEdit_pen :
    (handleEdit penState penProduct).formData =
      { name := "Pen", description := "", price := "1.50" } ∧
    (handleEdit penState penProduct).editingId = some 1 := by decide

/-- C9: handleDelete performs no state update of its own: for every id
and either outcome, editingId (indeed the whole state) is unchanged,
including when id is the currently edited id. -/
theorem C9_delete_preserves_editing (s : ComponentState) (id : Int)
    (ok : Bool) :
    (handleDelete s id ok).state.editingId = s.editingId ∧
    (handleDelete s id ok).state = s := by
  cases ok <;> simp [handleDelete]

/-- C10: when editingId = 0, the truthiness test treats it as falsy, so
submit takes the create branch: it issues a POST to the collection
endpoint and no PUT at all. -/
theorem C10_zero_id_creates (s : ComponentState) (ok : Bool)
    (h : s.editingId = some 0) :
    (handleSubmit s ok).requests =
      [Request.post (submissionData s.formData), Request.get] ∧
    (∀ i p, Request.put i p ∉ (handleSubmit s ok).requests) := by
  have ht : jsTruthy s.editingId = false := by simp [jsTruthy, h]
  cases ok <;> simp [handleSubmit, ht]

/-- C10 witness: a state editing id 0 submits a POST. -/
theorem C10_zero_id_creates_witness :
    ({ products := [], formData := emptyForm,
       editingId := some 0 } : ComponentState).editingId = some 0 ∧
    (handleSubmit
        { products := [], formData := emptyForm, editingId := some 0 }
        true).requests =
      [Request.post (submissionData emptyForm), Request.get] :=
  ⟨rfl,
    (C10_zero_id_creates
        { products := [], formData := emptyForm, editingId := some 0 }
        true rfl).1⟩
